import Mathlib

/-!
# Verification of `wtforms_components/widgets.py`

A shallow embedding of the widget module of `wtforms-components` in Lean 4,
together with theorems settling the specification's claims about it.

Conventions of the embedding:
* Python values that flow into HTML attributes are modelled by the inductive
  type `Val` (strings, ints, bools and datetimes cover every value the module
  puts into an attribute mapping).
* Python dicts used as keyword-argument mappings are modelled as ordered
  association lists (`AttrMap`) with Python's insertion-order semantics:
  `setdefault` appends at the end when the key is absent, `update` overwrites
  in place or appends.
* Fallible Python code (code that can raise) is modelled with `Except String`.
* External collaborators (`cgi.escape`, `wtforms.widgets.html_params`,
  `str`/`text_type`, `datetime.strftime`) are modelled from their documented
  behaviour, restricted to the inputs this module feeds them.
-/

namespace WtformsComponents

/-- A calendar date-time, the value type carried by `DateRange` / `TimeRange`
validator bounds.  `deriving Ord` yields the field-by-field lexicographic
comparison (year, month, day, hour, minute, second), which agrees with
Python's `datetime`/`date`/`time` comparison on the components used here. -/
structure DateTime where
  year : Nat
  month : Nat
  day : Nat
  hour : Nat
  minute : Nat
  second : Nat
deriving DecidableEq, Ord

/-- Python `max(a, b)` keeps the current value on ties (`if x > result`),
so `max r x` replaces `r` only when `r < x`. -/
instance : Max DateTime := ⟨fun r x => if compare r x = Ordering.lt then x else r⟩

/-- Python `min(a, b)` keeps the current value on ties (`if x < result`). -/
instance : Min DateTime := ⟨fun r x => if compare x r = Ordering.lt then x else r⟩

/-- Zero-pad a natural number to two digits, as Python `%02d`. -/
def pad2 (n : Nat) : String :=
  if n < 10 then "0" ++ toString n else toString n

/-- Zero-pad a natural number to four digits, as Python `%04d` (the `%Y`
directive of CPython zero-pads the year to four digits). -/
def pad4 (n : Nat) : String :=
  if n < 10 then "000" ++ toString n
  else if n < 100 then "00" ++ toString n
  else if n < 1000 then "0" ++ toString n
  else toString n

/-- One `strftime` directive.  Only the directives used by this module
(`%Y %m %d %H %M %S` and the literal `%%`) are given meaning; any other
directive is passed through verbatim (none occurs in the module). -/
def strfDirective (d : DateTime) (c : Char) : String :=
  if c = 'Y' then pad4 d.year
  else if c = 'm' then pad2 d.month
  else if c = 'd' then pad2 d.day
  else if c = 'H' then pad2 d.hour
  else if c = 'M' then pad2 d.minute
  else if c = 'S' then pad2 d.second
  else if c = '%' then "%"
  else "%" ++ String.singleton c

/-- Interpreter for an `strftime` format string over its character list. -/
def strftimeAux (d : DateTime) : List Char → String
  | '%' :: c :: rest => strfDirective d c ++ strftimeAux d rest
  | c :: rest => String.singleton c ++ strftimeAux d rest
  | [] => ""

/-- Models Python's `value.strftime(format)` for the fixed format strings
used by the date/time widgets. -/
def DateTime.strftime (d : DateTime) (fmt : String) : String :=
  strftimeAux d fmt.data

/-- The value type of everything this module stores in an attribute mapping:
Python strings, ints, bools and datetime-like objects. -/
inductive Val where
  | str (s : String)
  | int (n : Int)
  | bool (b : Bool)
  | dt (d : DateTime)
deriving DecidableEq

/-- Models Python `text_type` (`str`) on the values above.  `str(True)` is
`"True"`, `str(False)` is `"False"`; a datetime prints in ISO form with a
space separator. -/
def text_type : Val → String
  | .str s => s
  | .int n => toString n
  | .bool b => if b then "True" else "False"
  | .dt d => d.strftime "%Y-%m-%d %H:%M:%S"

/-- Python `==` between attribute values: structurally on equal constructors,
with Python's numeric equality between `bool` and `int` (`True == 1`);
values of otherwise different types compare unequal without error. -/
def pyEq : Val → Val → Bool
  | .str a, .str b => a == b
  | .int a, .int b => a == b
  | .bool a, .bool b => a == b
  | .int a, .bool b => a == (if b then (1 : Int) else 0)
  | .bool a, .int b => (if a then (1 : Int) else 0) == b
  | .dt a, .dt b => a == b
  | _, _ => false

/-! ## Attribute mappings (Python keyword-argument dicts) -/

/-- An insertion-ordered mapping from attribute names to values, as Python's
`dict` used for `**kwargs`. -/
abbrev AttrMap := List (String × Val)

/-- `d[k]` lookup: the first entry with the given key. -/
def lookupA (m : AttrMap) (k : String) : Option Val :=
  (m.find? (fun p => p.1 == k)).map (fun p => p.2)

/-- Python `dict.setdefault(k, v)`: if the key is present the dict is
unchanged, otherwise `(k, v)` is appended at the end. -/
def setdefaultA (m : AttrMap) (k : String) (v : Val) : AttrMap :=
  if (lookupA m k).isSome then m else m ++ [(k, v)]

/-- Python `d[k] = v`: overwrite in place when present, append otherwise. -/
def setA (m : AttrMap) (k : String) (v : Val) : AttrMap :=
  if (lookupA m k).isSome then
    m.map (fun p => if p.1 = k then (k, v) else p)
  else m ++ [(k, v)]

/-- Python `dict.update(other)`: set every entry of `other` in order. -/
def updateA (m other : AttrMap) : AttrMap :=
  other.foldl (fun acc p => setA acc p.1 p.2) m

/-- The keys of a mapping are pairwise distinct, as they are for every real
Python dict. -/
def keysUnique (m : AttrMap) : Prop := (m.map Prod.fst).Nodup

/-! ## Validators and fields -/

/-- The validator classes this module inspects with `isinstance`. -/
inductive VKind where
  | dataRequired
  | numberRange
  | dateRange
  | timeRange
  | other
deriving DecidableEq

/-- A WTForms validator instance: its class together with the optional
`min` / `max` bounds range validators carry (`DataRequired` and other
validators simply carry no bounds). -/
structure Validator (α : Type) where
  kind : VKind
  min : Option α
  max : Option α

/-- The slice of a WTForms `Field` object read by `min_max`,
`has_validator` and `HTML5Input.__call__`: the attached validators and
whether the object exposes a `widget_options` attribute. -/
structure Field (α : Type) where
  validators : List (Validator α)
  hasWidgetOptions : Bool

/-- Python `max(l)` on a non-empty list (`List.max?` has exactly the shape
`max(l)` guarded by the truthiness check: `none` on the empty list,
otherwise the left fold of `max` over the elements). -/
def pyListMax {α : Type} [Max α] (l : List α) : Option α := l.max?

/-- Python `min(l)` on a non-empty list, `none` on the empty list. -/
def pyListMin {α : Type} [Min α] (l : List α) : Option α := l.min?

/-- The result dict of `min_max`: each key is present (`some`) only when at
least one matching validator carried that bound. -/
structure MinMaxData (α : Type) where
  min : Option α
  max : Option α
deriving DecidableEq

/-- Embeds `min_max(field, validator_class)`:

    min_values = []
    max_values = []
    for validator in field.validators:
        if isinstance(validator, validator_class):
            if validator.min is not None:
                min_values.append(validator.min)
            if validator.max is not None:
                max_values.append(validator.max)
    data = {}
    if min_values:
        data['min'] = max(min_values)
    if max_values:
        data['max'] = min(max_values)
    return data

The accumulation loop is the left fold below (`Option.toList` contributes
one element for a present bound and nothing for an absent one). -/
def min_max {α : Type} [Max α] [Min α] (field : Field α) (validator_class : VKind) :
    MinMaxData α :=
  let lists := field.validators.foldl
    (fun (acc : List α × List α) validator =>
      if validator.kind = validator_class then
        (acc.1 ++ validator.min.toList, acc.2 ++ validator.max.toList)
      else acc)
    ([], [])
  ⟨pyListMax lists.1, pyListMin lists.2⟩

/-- Embeds `has_validator(field, validator_class)`. -/
def has_validator {α : Type} (field : Field α) (validator_class : VKind) : Bool :=
  (field.validators.map (fun validator => validator.kind == validator_class)).any id

/-- Specification-side list of all non-absent `min` values over the field's
validators of the given class (the claim's "all non-None min values"). -/
def minVals {α : Type} (field : Field α) (validator_class : VKind) : List α :=
  (field.validators.filter (fun v => v.kind = validator_class)).filterMap
    (fun v => v.min)

/-- Specification-side list of all non-absent `max` values. -/
def maxVals {α : Type} (field : Field α) (validator_class : VKind) : List α :=
  (field.validators.filter (fun v => v.kind = validator_class)).filterMap
    (fun v => v.max)

/-! ## External collaborators: `cgi.escape` and `wtforms.widgets.html_params` -/

/-- The replacement for one character under `cgi.escape`.  The sequential
`str.replace` calls of `cgi.escape` (`&` first, then `<`, then `>`, then `"`
when `quote` is set) are equivalent to this single character-wise pass,
because no replacement string contains a character replaced later. -/
def escChar (quote : Bool) (c : Char) : List Char :=
  if c = '&' then "&amp;".data
  else if c = '<' then "&lt;".data
  else if c = '>' then "&gt;".data
  else if quote ∧ c = '"' then "&quot;".data
  else [c]

/-- Models `cgi.escape(s, quote)`; the module calls it with `quote` left at
its default `False`, while `html_params` calls it with `quote=True`. -/
def escape (s : String) (quote : Bool) : String :=
  ⟨s.data.foldr (fun c r => escChar quote c ++ r) []⟩

/-- `sorted(kwargs.items())` on a dict (unique keys): a stable sort by key.
Implemented as insertion sort so that it is structurally recursive. -/
def insertSorted (p : String × Val) : List (String × Val) → List (String × Val)
  | [] => [p]
  | q :: rest => if p.1 ≤ q.1 then p :: q :: rest else q :: insertSorted p rest

/-- Stable sort of the attribute items by key. -/
def sortParams : List (String × Val) → List (String × Val)
  | [] => []
  | p :: rest => insertSorted p (sortParams rest)

/-- `html_params` strips a trailing underscore from the reserved-word keys
`class_`, `class__` and `for_`. -/
def paramKey (k : String) : String :=
  if k = "class_" ∨ k = "class__" ∨ k = "for_" then k.dropRight 1 else k

/-- One `k="v"` item of `html_params`: a value that `is True` renders as the
bare attribute name, anything else as `key="escaped value"`. -/
def paramStr (p : String × Val) : String :=
  if p.2 = Val.bool true then paramKey p.1
  else paramKey p.1 ++ "=\"" ++ escape (text_type p.2) true ++ "\""

/-- Models `wtforms.widgets.html_params(**kwargs)`: items sorted by key and
joined with single spaces. -/
def html_params (m : AttrMap) : String :=
  String.intercalate " " ((sortParams m).map paramStr)

/-! ## `HTML5Input` and its subclasses -/

/-- The state of an `HTML5Input` widget instance: `__init__` stores only the
renderer-configured base options (`self.options = kwargs`). -/
structure HTML5Input where
  options : AttrMap

/-- Embeds `HTML5Input.__call__(field, **kwargs)`.  The subclass-dependent
`range_validators` method is passed in as `range_validators`.

    def __call__(self, field, **kwargs):
        if has_validator(field, DataRequired):
            kwargs.setdefault('required', True)
        for key, value in self.range_validators(field).items():
            kwargs.setdefault(key, value)
        if hasattr(field, 'widget_options'):
            for key, value in self.field.widget_options:
                kwargs.setdefault(key, value)
        options_copy = copy(self.options)
        options_copy.update(kwargs)
        return super(HTML5Input, self).__call__(field, **options_copy)

When the field exposes a `widget_options` attribute, the read of
`self.field` raises `AttributeError`: `HTML5Input.__init__` assigns only
`self.options`, and the `wtforms.widgets.Input` base class assigns only
`self.input_type`, so no attribute named `field` ever exists on the widget.
The successful branch returns the merged attribute mapping `options_copy`
that is handed to the host framework's base `Input.__call__`. -/
def HTML5Input.call {α : Type} (w : HTML5Input)
    (range_validators : Field α → List (String × Val))
    (f : Field α) (kwargs : AttrMap) : Except String AttrMap :=
  let kwargs1 :=
    if has_validator f .dataRequired then setdefaultA kwargs "required" (.bool true)
    else kwargs
  let kwargs2 := (range_validators f).foldl (fun acc p => setdefaultA acc p.1 p.2) kwargs1
  if f.hasWidgetOptions then
    .error "AttributeError: 'HTML5Input' object has no attribute 'field'"
  else
    .ok (updateA w.options kwargs2)

/-- The base class's `range_validators` returns the empty dict. -/
def HTML5Input.range_validators {α : Type} (_f : Field α) : List (String × Val) := []

/-- The items of a `min_max` result dict in its Python iteration order:
`'min'` was inserted first (when present), then `'max'`. -/
def minMaxAttrs {α : Type} (conv : α → Val) (data : MinMaxData α) : List (String × Val) :=
  (data.min.toList.map (fun x => ("min", conv x))) ++
    (data.max.toList.map (fun x => ("max", conv x)))

/-- Embeds `BaseDateTimeInput.range_validators`:

    data = min_max(field, self.range_validator_class)
    if 'min' in data:
        data['min'] = data['min'].strftime(self.format)
    if 'max' in data:
        data['max'] = data['max'].strftime(self.format)
    return data

parameterised by the subclass's `range_validator_class` and `format`. -/
def BaseDateTimeInput.range_validators (range_validator_class : VKind) (format : String)
    (f : Field DateTime) : List (String × Val) :=
  minMaxAttrs (fun d => Val.str (d.strftime format)) (min_max f range_validator_class)

/-- `TimeInput.range_validator_class = TimeRange`. -/
def TimeInput.range_validator_class : VKind := .timeRange

/-- `TimeInput.format`. -/
def TimeInput.format : String := "%H:%M:%S"

/-- `TimeInput` inherits `range_validators` from `BaseDateTimeInput`. -/
def TimeInput.range_validators : Field DateTime → List (String × Val) :=
  BaseDateTimeInput.range_validators TimeInput.range_validator_class TimeInput.format

/-- `DateTimeLocalInput` keeps the inherited `range_validator_class = DateRange`. -/
def DateTimeLocalInput.range_validator_class : VKind := .dateRange

/-- `DateTimeLocalInput.format`. -/
def DateTimeLocalInput.format : String := "%Y-%m-%dT%H:%M:%S"

/-- `DateTimeLocalInput` inherits `range_validators` from `BaseDateTimeInput`. -/
def DateTimeLocalInput.range_validators : Field DateTime → List (String × Val) :=
  BaseDateTimeInput.range_validators DateTimeLocalInput.range_validator_class
    DateTimeLocalInput.format

/-- `DateTimeInput` keeps the inherited `range_validator_class = DateRange`. -/
def DateTimeInput.range_validator_class : VKind := .dateRange

/-- `DateTimeInput.format`. -/
def DateTimeInput.format : String := "%Y-%m-%dT%H:%M:%SZ"

/-- `DateTimeInput` inherits `range_validators` from `BaseDateTimeInput`. -/
def DateTimeInput.range_validators : Field DateTime → List (String × Val) :=
  BaseDateTimeInput.range_validators DateTimeInput.range_validator_class DateTimeInput.format

/-- `DateInput` keeps the inherited `range_validator_class = DateRange`. -/
def DateInput.range_validator_class : VKind := .dateRange

/-- `DateInput.format`. -/
def DateInput.format : String := "%Y-%m-%d"

/-- `DateInput` inherits `range_validators` from `BaseDateTimeInput`. -/
def DateInput.range_validators : Field DateTime → List (String × Val) :=
  BaseDateTimeInput.range_validators DateInput.range_validator_class DateInput.format

/-- Embeds `NumberInput.range_validators`: `min_max(field, NumberRange)`
returned unformatted (bounds are numbers, modelled as integers). -/
def NumberInput.range_validators (f : Field Int) : List (String × Val) :=
  minMaxAttrs Val.int (min_max f .numberRange)

/-! ## `ReadOnlyWidgetProxy` -/

/-- A `ReadOnlyWidgetProxy` instance holds the wrapped widget; its
`__getattr__` forwards unknown attribute lookups to that widget. -/
structure ReadOnlyWidgetProxy (W : Type) where
  widget : W

/-- Embeds `ReadOnlyWidgetProxy.__call__(field, **kwargs)`:

    kwargs.setdefault('readonly', True)
    return self.widget(field, **kwargs)

`render` is the wrapped widget's own `__call__`. -/
def ReadOnlyWidgetProxy.call {W F R : Type} (p : ReadOnlyWidgetProxy W)
    (render : W → F → AttrMap → R) (field : F) (kwargs : AttrMap) : R :=
  render p.widget field (setdefaultA kwargs "readonly" (Val.bool true))

/-! ## `SelectWidget` -/

/-- Modelled from the spec: the `Choice` class lives in
`wtforms_components.fields.select`, which is not among the sources; the
spec's data model defines it as "a (key, value, label) triple". -/
structure Choice where
  key : Val
  value : Val
  label : Val

mutual

/-- One entry of a field's `iter_choices()` sequence: a `Choice`, a
`Choices` group (modelled from the spec: "a label plus an ordered sequence
of Choice" — though the code re-dispatches on each member, so members may
be any entry), or an object of neither class (`other`). -/
inductive ChoiceEntry where
  | choice (c : Choice)
  | group (label : Val) (entries : ChoiceList)
  | other

/-- A sequence of choice entries (kept mutually inductive with
`ChoiceEntry` so that the renderer is structurally recursive). -/
inductive ChoiceList where
  | nil
  | cons (head : ChoiceEntry) (tail : ChoiceList)

end

/-- The field data a select field's current value may hold: a scalar or a
multi-valued `list` (the shape `isinstance(field.data, list)` tests). -/
inductive FieldData where
  | scalar (v : Val)
  | list (l : List Val)

/-- The slice of a select-type WTForms field the widget reads: `id`, `name`,
current `data` and the `iter_choices()` sequence. -/
structure SelectField where
  id : String
  name : String
  data : FieldData
  choices : ChoiceList

/-- The `selected` test of `render_choice`:

    if isinstance(field.data, list):
        selected = choice.value in field.data
    else:
        selected = field.data == choice.value
-/
def choiceSelected (data : FieldData) (c : Choice) : Bool :=
  match data with
  | .list l => l.any (fun x => pyEq x c.value)
  | .scalar v => pyEq v c.value

/-- The options dict built by `render_option`:

    if value is True:
        value = text_type(value)
    options = dict(kwargs, value=value)
    if selected:
        options['selected'] = True
-/
def optionOptions (value : Val) (selected : Bool) (kwargs : AttrMap) : AttrMap :=
  let value := if value = Val.bool true then Val.str (text_type value) else value
  let options := setA kwargs "value" value
  if selected then setA options "selected" (Val.bool true) else options

/-- Embeds `SelectWidget.render_option(value, label, selected, **kwargs)`:

    return HTMLString('<option %s>%s</option>' % (
        html_params(**options), escape(six.text_type(label)))
    )
-/
def render_option (value : Val) (label : Val) (selected : Bool) (kwargs : AttrMap) : String :=
  "<option " ++ html_params (optionOptions value selected kwargs) ++ ">" ++
    escape (text_type label) false ++ "</option>"

mutual

/-- Embeds `SelectWidget.render_choice(field, choice)` together with the
`render_optgroup` it calls on a `Choices` group.  A `Choice` renders an
`<option>`; a group renders `'<optgroup label="%s">%s</optgroup>'` with the
escaped group label and the newline-join of its rendered members; an entry
of neither class falls off the `if/elif` and returns `None` (`.ok none`).
`'\n'.join` raises `TypeError` when a member rendered to `None`, which is
the `.error` branch. -/
def render_choice (f : SelectField) : ChoiceEntry → Except String (Option String)
  | .choice c =>
    .ok (some (render_option c.key c.label (choiceSelected f.data c) []))
  | .group label entries =>
    match renderChoiceList f entries with
    | .error m => .error m
    | .ok parts =>
      if parts.all Option.isSome then
        .ok (some ("<optgroup label=\"" ++ escape (text_type label) false ++ "\">" ++
          String.intercalate "\n" (parts.filterMap id) ++ "</optgroup>"))
      else .error "TypeError: sequence item: expected str instance, NoneType found"
  | .other => .ok none

/-- `render_choice` mapped over a sequence of entries, propagating the first
raised exception (the generators in `__call__` and `render_optgroup` are
consumed in order). -/
def renderChoiceList (f : SelectField) : ChoiceList → Except String (List (Option String))
  | .nil => .ok []
  | .cons e rest =>
    match render_choice f e, renderChoiceList f rest with
    | .error m, _ => .error m
    | .ok _, .error m => .error m
    | .ok o, .ok os => .ok (o :: os)

end

/-- The state of a `SelectWidget` instance. -/
structure SelectWidget where
  multiple : Bool

/-- Embeds `SelectWidget.__call__(field, **kwargs)`:

    kwargs.setdefault('id', field.id)
    if self.multiple:
        kwargs['multiple'] = True
    html = ['<select %s>' % html_params(name=field.name, **kwargs)]
    html.extend(
        self.render_choice(field, choice)
        for choice in field.iter_choices()
    )
    html.append('</select>')
    return HTMLString(''.join(html))

`''.join` raises `TypeError` when `render_choice` returned `None` for some
entry (the `.error` branch below); exceptions raised while the generator is
consumed propagate unchanged. -/
def SelectWidget.call (w : SelectWidget) (f : SelectField) (kwargs : AttrMap) :
    Except String String :=
  let kwargs := setdefaultA kwargs "id" (Val.str f.id)
  let kwargs := if w.multiple then setA kwargs "multiple" (Val.bool true) else kwargs
  match renderChoiceList f f.choices with
  | .error m => .error m
  | .ok parts =>
    if parts.all Option.isSome then
      .ok ("<select " ++ html_params (("name", Val.str f.name) :: kwargs) ++ ">" ++
        String.join (parts.filterMap id) ++ "</select>")
    else .error "TypeError: sequence item: expected str instance, NoneType found"

mutual

/-- Whether a choice entry is, or contains (below groups), an entry that is
neither a `Choice` nor a `Choices` group. -/
def hasOther : ChoiceEntry → Bool
  | .other => true
  | .choice _ => false
  | .group _ entries => hasOtherList entries

/-- Whether a sequence of entries contains an unrecognized entry. -/
def hasOtherList : ChoiceList → Bool
  | .nil => false
  | .cons e rest => hasOther e || hasOtherList rest

end

/-- `HTML5Input.__call__` together with the widget state after the call:
the method reads `self.options` only through `copy`, updating the copy, so
the instance state is unchanged by a call. -/
def HTML5Input.callS {α : Type} (w : HTML5Input)
    (range_validators : Field α → List (String × Val))
    (f : Field α) (kwargs : AttrMap) : Except String AttrMap × HTML5Input :=
  (w.call range_validators f kwargs, w)

/-- `SelectWidget.__call__` together with the widget state after the call:
the method reads `self.multiple` and writes no instance attribute. -/
def SelectWidget.callS (w : SelectWidget) (f : SelectField) (kwargs : AttrMap) :
    Except String String × SelectWidget :=
  (w.call f kwargs, w)

/-! ## Derived-defaults view of `HTML5Input.__call__` -/

/-- Apply a list of `(key, value)` defaults to a mapping by successive
`setdefault` calls, in order. -/
def applyDefaults (m : AttrMap) (ds : List (String × Val)) : AttrMap :=
  ds.foldl (fun acc p => setdefaultA acc p.1 p.2) m

/-- The defaults `HTML5Input.__call__` derives from the field, in the order
it applies them: the `required` default (when the field carries a
`DataRequired` validator) followed by the subclass's range-validator
items. -/
def derivedDefaults {α : Type} (range_validators : Field α → List (String × Val))
    (f : Field α) : List (String × Val) :=
  (if has_validator f .dataRequired then [("required", Val.bool true)] else []) ++
    range_validators f

/-! ## Concrete inputs used by counterexamples and witnesses -/

/-- A select field whose choice sequence contains an entry that is neither a
`Choice` nor a `Choices` group, after one ordinary choice. -/
def exUnrecognizedField : SelectField :=
  ⟨"i", "n", .scalar (Val.str "x"),
    .cons (.choice ⟨Val.str "a", Val.str "a", Val.str "A"⟩) (.cons .other .nil)⟩

/-- A choice whose `key` and `value` differ. -/
def exKeyValueChoice : Choice := ⟨Val.str "k", Val.str "v", Val.str "L"⟩

/-- A select field with scalar data matching none of the values above. -/
def exScalarField : SelectField := ⟨"i", "n", .scalar (Val.str "x"), .nil⟩

/-! ## Lemmas about attribute mappings -/

theorem lookupA_nil (k : String) : lookupA [] k = none := rfl

theorem lookupA_cons (p : String × Val) (m : AttrMap) (k : String) :
    lookupA (p :: m) k = if p.1 = k then some p.2 else lookupA m k := by
  by_cases h : p.1 = k <;> simp [lookupA, List.find?_cons, h]

theorem lookupA_append (m1 m2 : AttrMap) (k : String) :
    lookupA (m1 ++ m2) k = (lookupA m1 k).or (lookupA m2 k) := by
  induction m1 with
  | nil => simp [lookupA_nil]
  | cons p m1 ih =>
    by_cases h : p.1 = k <;> simp [lookupA_cons, h, ih]

theorem lookupA_eq_none_iff (m : AttrMap) (k : String) :
    lookupA m k = none ↔ k ∉ m.map Prod.fst := by
  induction m with
  | nil => simp [lookupA_nil]
  | cons p m ih =>
    by_cases h : p.1 = k
    · simp [lookupA_cons, h]
    · have h' : ¬k = p.1 := fun hk => h hk.symm
      simp [lookupA_cons, h, ih, h']

theorem lookupA_setdefaultA_self (m : AttrMap) (k : String) (v : Val) :
    lookupA (setdefaultA m k v) k = some ((lookupA m k).getD v) := by
  unfold setdefaultA
  cases h : lookupA m k with
  | some w => simp [h]
  | none => simp [h, lookupA_append, lookupA_cons]

theorem lookupA_setdefaultA_other (m : AttrMap) (k k' : String) (v : Val) (h : k' ≠ k) :
    lookupA (setdefaultA m k v) k' = lookupA m k' := by
  have h' : ¬k = k' := fun hk => h hk.symm
  unfold setdefaultA
  cases hm : lookupA m k with
  | some w => simp
  | none => simp [lookupA_append, lookupA_cons, lookupA_nil, h', Option.or_none]

theorem lookupA_setdefaultA (m : AttrMap) (k k' : String) (v : Val) :
    lookupA (setdefaultA m k v) k' =
      (lookupA m k').or (lookupA (setdefaultA [] k v) k') := by
  by_cases hk : k' = k
  · subst hk
    rw [lookupA_setdefaultA_self, lookupA_setdefaultA_self]
    cases h : lookupA m k' <;> simp [lookupA_nil]
  · rw [lookupA_setdefaultA_other _ _ _ _ hk, lookupA_setdefaultA_other _ _ _ _ hk]
    simp [lookupA_nil]

theorem lookupA_overwrite (m : AttrMap) (k : String) (v : Val) (k' : String) :
    lookupA (m.map (fun p => if p.1 = k then (k, v) else p)) k' =
      if k' = k then (lookupA m k).map (fun _ => v) else lookupA m k' := by
  by_cases hk : k' = k
  · subst hk
    rw [if_pos rfl]
    induction m with
    | nil => simp [lookupA_nil]
    | cons p m ih =>
      by_cases hp : p.1 = k'
      · simp [List.map_cons, hp, lookupA_cons]
      · simp [List.map_cons, hp, lookupA_cons, ih]
  · rw [if_neg hk]
    induction m with
    | nil => simp
    | cons p m ih =>
      by_cases hp : p.1 = k
      · have hkk : ¬k = k' := fun e => hk e.symm
        have hp' : ¬p.1 = k' := by rw [hp]; exact hkk
        simp [List.map_cons, hp, lookupA_cons, ih, hkk, hp']
      · simp [List.map_cons, hp, lookupA_cons, ih]

theorem lookupA_setA_self (m : AttrMap) (k : String) (v : Val) :
    lookupA (setA m k v) k = some v := by
  unfold setA
  cases hm : lookupA m k with
  | none => simp [lookupA_append, hm, lookupA_cons]
  | some w =>
    simp only [hm, Option.isSome_some, if_true]
    rw [lookupA_overwrite, if_pos rfl, hm]
    rfl

theorem lookupA_setA_other (m : AttrMap) (k k' : String) (v : Val) (h : k' ≠ k) :
    lookupA (setA m k v) k' = lookupA m k' := by
  have h' : ¬k = k' := fun hk => h hk.symm
  unfold setA
  cases hm : lookupA m k with
  | none => simp [lookupA_append, lookupA_cons, lookupA_nil, h', Option.or_none]
  | some w =>
    simp only [hm, Option.isSome_some, if_true]
    rw [lookupA_overwrite, if_neg h]

theorem lookupA_applyDefaults (ds : List (String × Val)) (m : AttrMap) (k : String) :
    lookupA (applyDefaults m ds) k =
      (lookupA m k).or (lookupA (applyDefaults [] ds) k) := by
  induction ds generalizing m with
  | nil => simp [applyDefaults, lookupA_nil]
  | cons p ds ih =>
    show lookupA (applyDefaults (setdefaultA m p.1 p.2) ds) k =
      (lookupA m k).or (lookupA (applyDefaults (setdefaultA [] p.1 p.2) ds) k)
    rw [ih (setdefaultA m p.1 p.2), ih (setdefaultA [] p.1 p.2),
      lookupA_setdefaultA, lookupA_setdefaultA [] p.1 k p.2]
    simp [lookupA_nil, Option.or_assoc]

theorem keysUnique_setdefaultA (m : AttrMap) (k : String) (v : Val)
    (h : keysUnique m) : keysUnique (setdefaultA m k v) := by
  unfold setdefaultA
  cases hm : lookupA m k with
  | some w => simpa using h
  | none =>
    simp only [hm, Option.isSome_none, Bool.false_eq_true, if_false]
    have hk : k ∉ m.map Prod.fst := (lookupA_eq_none_iff m k).mp hm
    unfold keysUnique at h ⊢
    rw [List.map_append]
    refine List.Nodup.append h (by simp) ?_
    intro a ha hb
    simp only [List.map_cons, List.map_nil, List.mem_singleton] at hb
    subst hb
    exact hk ha

theorem keysUnique_applyDefaults (ds : List (String × Val)) (m : AttrMap)
    (h : keysUnique m) : keysUnique (applyDefaults m ds) := by
  induction ds generalizing m with
  | nil => exact h
  | cons p ds ih =>
    exact ih (setdefaultA m p.1 p.2) (keysUnique_setdefaultA m p.1 p.2 h)

theorem lookupA_updateA (o : AttrMap) (m : AttrMap) (k : String)
    (h : keysUnique o) : lookupA (updateA m o) k = (lookupA o k).or (lookupA m k) := by
  induction o generalizing m with
  | nil => simp [updateA, lookupA_nil]
  | cons p o ih =>
    have hconsu : keysUnique o := by
      unfold keysUnique at h ⊢
      exact (List.nodup_cons.mp (by simpa using h)).2
    have hnotin : p.1 ∉ o.map Prod.fst := by
      unfold keysUnique at h
      exact (List.nodup_cons.mp (by simpa using h)).1
    show lookupA (updateA (setA m p.1 p.2) o) k = _
    rw [ih (setA m p.1 p.2) hconsu, lookupA_cons]
    by_cases hk : p.1 = k
    · subst hk
      have ho : lookupA o p.1 = none := (lookupA_eq_none_iff o p.1).mpr hnotin
      simp [ho, lookupA_setA_self]
    · rw [lookupA_setA_other m p.1 k p.2 (fun e => hk e.symm), if_neg hk]

theorem HTML5Input.call_eq {α : Type} (w : HTML5Input)
    (range_validators : Field α → List (String × Val)) (f : Field α) (kwargs : AttrMap) :
    w.call range_validators f kwargs =
      if f.hasWidgetOptions then
        .error "AttributeError: 'HTML5Input' object has no attribute 'field'"
      else .ok (updateA w.options (applyDefaults kwargs (derivedDefaults range_validators f))) := by
  unfold HTML5Input.call derivedDefaults applyDefaults
  rw [List.foldl_append]
  cases has_validator f .dataRequired <;> rfl

/-! ## Lemmas about `min_max` -/

theorem minmax_foldl_eq {α : Type} (vc : VKind) (l : List (Validator α)) (a b : List α) :
    l.foldl (fun (acc : List α × List α) validator =>
      if validator.kind = vc then
        (acc.1 ++ validator.min.toList, acc.2 ++ validator.max.toList)
      else acc) (a, b)
    = (a ++ (l.filter (fun v => v.kind = vc)).filterMap (fun v => v.min),
       b ++ (l.filter (fun v => v.kind = vc)).filterMap (fun v => v.max)) := by
  induction l generalizing a b with
  | nil => simp
  | cons v l ih =>
    by_cases hv : v.kind = vc
    · rw [List.foldl_cons, if_pos hv, ih]
      have hfc : (v :: l).filter (fun v => decide (v.kind = vc)) =
          v :: l.filter (fun v => decide (v.kind = vc)) := by
        simp [List.filter_cons, hv]
      rw [hfc]
      cases hm : v.min <;> cases hx : v.max <;>
        simp [List.filterMap_cons, hm, hx, List.append_assoc]
    · rw [List.foldl_cons, if_neg hv, ih]
      have hfc : (v :: l).filter (fun v => decide (v.kind = vc)) =
          l.filter (fun v => decide (v.kind = vc)) := by
        simp [List.filter_cons, hv]
      rw [hfc]

theorem min_max_eq {α : Type} [Max α] [Min α] (f : Field α) (vc : VKind) :
    min_max f vc = ⟨(minVals f vc).max?, (maxVals f vc).min?⟩ := by
  unfold min_max minVals maxVals pyListMax pyListMin
  rw [minmax_foldl_eq]
  simp

/-! ## Claim theorems -/

/-- C1: for every field and validator class, the `'min'` entry of
`min_max(field, validator_class)` is the maximum of all non-`None` `min`
values over the field's validators of that class, the `'max'` entry is the
minimum of all non-`None` `max` values, and each entry is absent (`none`)
exactly when no matching validator carries that bound; the function is
total, so absence never produces a failure. -/
theorem c1_min_max_tightest {α : Type} [LinearOrder α] (f : Field α) (vc : VKind) :
    ((∀ a : α, (min_max f vc).min = some a ↔
        a ∈ minVals f vc ∧ ∀ b ∈ minVals f vc, b ≤ a)
      ∧ ((min_max f vc).min = none ↔ minVals f vc = []))
    ∧ ((∀ a : α, (min_max f vc).max = some a ↔
        a ∈ maxVals f vc ∧ ∀ b ∈ maxVals f vc, a ≤ b)
      ∧ ((min_max f vc).max = none ↔ maxVals f vc = [])) := by
  haveI : Std.Antisymm ((· : α) ≤ ·) := ⟨fun h h' => le_antisymm h h'⟩
  rw [min_max_eq]
  refine ⟨⟨fun a => ?_, ?_⟩, ⟨fun a => ?_, ?_⟩⟩
  · exact List.max?_eq_some_iff (fun x => le_refl x) (fun x y => max_choice x y)
      (fun x y z => max_le_iff)
  · exact List.max?_eq_none_iff
  · exact List.min?_eq_some_iff (fun x => le_refl x) (fun x y => min_choice x y)
      (fun x y z => le_min_iff)
  · exact List.min?_eq_none_iff

/-- C2: for every field and HTML5 input call that returns a merged attribute
set, the merge respects the precedence base options < derived
required/range defaults < explicit caller keywords: an explicit caller
keyword always survives into the result (in particular an explicit
`required=False` is never replaced by `required=True`), a derived default
is applied only when the caller did not supply that key, and a base option
shows through only when neither supplied the key. -/
theorem c2_merge_precedence {α : Type} (w : HTML5Input)
    (range_validators : Field α → List (String × Val)) (f : Field α)
    (kwargs res : AttrMap) (hu : keysUnique kwargs)
    (hok : w.call range_validators f kwargs = .ok res) :
    (∀ k v, lookupA kwargs k = some v → lookupA res k = some v)
    ∧ (lookupA kwargs "required" = some (Val.bool false) →
        lookupA res "required" = some (Val.bool false))
    ∧ (∀ k v, lookupA kwargs k = none →
        lookupA (applyDefaults [] (derivedDefaults range_validators f)) k = some v →
        lookupA res k = some v)
    ∧ (∀ k, lookupA kwargs k = none →
        lookupA (applyDefaults [] (derivedDefaults range_validators f)) k = none →
        lookupA res k = lookupA w.options k) := by
  rw [HTML5Input.call_eq] at hok
  by_cases hw : f.hasWidgetOptions
  · rw [if_pos hw] at hok
    exact absurd hok (by simp)
  · rw [if_neg hw] at hok
    have hres : res = updateA w.options
        (applyDefaults kwargs (derivedDefaults range_validators f)) := by
      cases hok
      rfl
    have hu2 : keysUnique (applyDefaults kwargs (derivedDefaults range_validators f)) :=
      keysUnique_applyDefaults _ _ hu
    have hlook : ∀ k, lookupA res k =
        ((lookupA kwargs k).or
          (lookupA (applyDefaults [] (derivedDefaults range_validators f)) k)).or
          (lookupA w.options k) := by
      intro k
      rw [hres, lookupA_updateA _ _ _ hu2, lookupA_applyDefaults]
    refine ⟨fun k v hv => ?_, fun hv => ?_, fun k v hn hd => ?_, fun k hn hd => ?_⟩
    · rw [hlook k, hv]
      rfl
    · rw [hlook "required", hv]
      rfl
    · rw [hlook k, hn, hd]
      rfl
    · rw [hlook k, hn, hd]
      rfl

/-- Witness for C2 at a concrete widget, field and keyword set: a field with
a `DataRequired` validator called with an explicit `required=False` merges
to a set in which `required` is still `False`, with the base option and the
derived range default present. -/
theorem c2_merge_precedence_witness :
    HTML5Input.call ⟨[("step", Val.str "any")]⟩ (fun _ => [("min", Val.int 1)])
      (⟨[⟨.dataRequired, none, none⟩], false⟩ : Field Int) [("required", Val.bool false)]
      = .ok [("step", Val.str "any"), ("required", Val.bool false), ("min", Val.int 1)]
    ∧ lookupA [("step", Val.str "any"), ("required", Val.bool false), ("min", Val.int 1)]
        "required" = some (Val.bool false) :=
  ⟨rfl,
    (c2_merge_precedence ⟨[("step", Val.str "any")]⟩ (fun _ => [("min", Val.int 1)])
      (⟨[⟨.dataRequired, none, none⟩], false⟩ : Field Int) [("required", Val.bool false)]
      [("step", Val.str "any"), ("required", Val.bool false), ("min", Val.int 1)]
      (by simp [keysUnique]) rfl).2.1 rfl⟩

/-- C10: for every field object that exposes a `widget_options` attribute,
`HTML5Input.__call__` raises `AttributeError` (it reads `self.field`, an
attribute the widget never defines) before producing any merged attribute
set, and consequently a merged set is only ever produced for fields without
`widget_options`: the intended merging of `widget_options` as defaults is
unreachable. -/
theorem c10_widget_options_attribute_error {α : Type} (w : HTML5Input)
    (range_validators : Field α → List (String × Val)) (f : Field α) (kwargs : AttrMap) :
    (f.hasWidgetOptions = true →
      w.call range_validators f kwargs =
        .error "AttributeError: 'HTML5Input' object has no attribute 'field'")
    ∧ (∀ res, w.call range_validators f kwargs = .ok res → f.hasWidgetOptions = false) := by
  constructor
  · intro hw
    rw [HTML5Input.call_eq, if_pos hw]
  · intro res hok
    by_cases hw : f.hasWidgetOptions
    · rw [HTML5Input.call_eq, if_pos hw] at hok
      exact absurd hok (by simp)
    · simpa using hw

/-- Witness for C10: a concrete field exposing `widget_options` makes the
call produce the `AttributeError`, not a merged attribute set. -/
theorem c10_widget_options_attribute_error_witness :
    HTML5Input.call ⟨[]⟩ (fun _ => []) (⟨[], true⟩ : Field Int) [] =
      .error "AttributeError: 'HTML5Input' object has no attribute 'field'" :=
  (c10_widget_options_attribute_error ⟨[]⟩ (fun _ => []) (⟨[], true⟩ : Field Int) []).1 rfl

/-- C6: each date/time widget formats every derived `min`/`max` bound
through its fixed format string before insertion: `%H:%M:%S` for
`TimeInput` (over `TimeRange` validators), `%Y-%m-%d` for `DateInput`,
`%Y-%m-%dT%H:%M:%S` for `DateTimeLocalInput` and `%Y-%m-%dT%H:%M:%SZ` for
`DateTimeInput` (all over `DateRange` validators); the concrete equalities
check the formats themselves, including the spec's scenario for the bound
2020-01-01. -/
theorem c6_datetime_bounds_formatted :
    ((∀ f : Field DateTime, TimeInput.range_validators f =
        minMaxAttrs (fun d => Val.str (d.strftime "%H:%M:%S")) (min_max f .timeRange))
      ∧ (∀ f : Field DateTime, DateInput.range_validators f =
        minMaxAttrs (fun d => Val.str (d.strftime "%Y-%m-%d")) (min_max f .dateRange))
      ∧ (∀ f : Field DateTime, DateTimeLocalInput.range_validators f =
        minMaxAttrs (fun d => Val.str (d.strftime "%Y-%m-%dT%H:%M:%S")) (min_max f .dateRange))
      ∧ (∀ f : Field DateTime, DateTimeInput.range_validators f =
        minMaxAttrs (fun d => Val.str (d.strftime "%Y-%m-%dT%H:%M:%SZ")) (min_max f .dateRange)))
    ∧ (DateTime.strftime ⟨2020, 1, 1, 0, 0, 0⟩ "%Y-%m-%d" = "2020-01-01"
      ∧ DateTime.strftime ⟨2020, 1, 1, 0, 0, 0⟩ "%Y-%m-%dT%H:%M:%S" = "2020-01-01T00:00:00"
      ∧ DateTime.strftime ⟨1900, 1, 1, 13, 5, 9⟩ "%H:%M:%S" = "13:05:09"
      ∧ DateTime.strftime ⟨2020, 1, 2, 13, 5, 9⟩ "%Y-%m-%dT%H:%M:%SZ" = "2020-01-02T13:05:09Z") :=
  ⟨⟨fun _ => rfl, fun _ => rfl, fun _ => rfl, fun _ => rfl⟩, rfl, rfl, rfl, rfl⟩

/-- C8: `ReadOnlyWidgetProxy.__call__` delegates with `readonly=True` added
as a default: when the caller did not pass `readonly`, the wrapped renderer
receives the caller's keywords with `readonly=True` appended (and the
forwarded mapping answers `readonly` with `True`); when the caller passed
`readonly` explicitly — including `readonly=False` — the keywords reach the
wrapped renderer completely unchanged; all keys other than `readonly` are
always forwarded as given. -/
theorem c8_readonly_default_preserved {W F R : Type} (p : ReadOnlyWidgetProxy W)
    (render : W → F → AttrMap → R) (field : F) (kwargs : AttrMap) :
    (lookupA kwargs "readonly" = none →
      p.call render field kwargs =
        render p.widget field (kwargs ++ [("readonly", Val.bool true)])
      ∧ lookupA (setdefaultA kwargs "readonly" (Val.bool true)) "readonly" =
          some (Val.bool true))
    ∧ (∀ v, lookupA kwargs "readonly" = some v →
        p.call render field kwargs = render p.widget field kwargs)
    ∧ (∀ k, k ≠ "readonly" →
        lookupA (setdefaultA kwargs "readonly" (Val.bool true)) k = lookupA kwargs k) := by
  refine ⟨fun hn => ⟨?_, ?_⟩, fun v hv => ?_, fun k hk => ?_⟩
  · unfold ReadOnlyWidgetProxy.call setdefaultA
    rw [hn]
    rfl
  · rw [lookupA_setdefaultA_self, hn]
    rfl
  · unfold ReadOnlyWidgetProxy.call setdefaultA
    rw [hv]
    rfl
  · exact lookupA_setdefaultA_other kwargs "readonly" k (Val.bool true) hk

/-- Witness for C8 at a concrete renderer that returns the keyword mapping
it receives: an invocation without `readonly` delegates with
`readonly=True` appended, and an invocation with an explicit
`readonly=False` delegates the mapping unchanged. -/
theorem c8_readonly_default_preserved_witness :
    ReadOnlyWidgetProxy.call (⟨()⟩ : ReadOnlyWidgetProxy Unit)
      (fun _ (_ : Unit) m => m) () [] = [] ++ [("readonly", Val.bool true)]
    ∧ ReadOnlyWidgetProxy.call (⟨()⟩ : ReadOnlyWidgetProxy Unit)
      (fun _ (_ : Unit) m => m) () [("readonly", Val.bool false)] =
        [("readonly", Val.bool false)] :=
  ⟨((c8_readonly_default_preserved (⟨()⟩ : ReadOnlyWidgetProxy Unit)
      (fun _ (_ : Unit) m => m) () []).1 rfl).1,
    (c8_readonly_default_preserved (⟨()⟩ : ReadOnlyWidgetProxy Unit)
      (fun _ (_ : Unit) m => m) () [("readonly", Val.bool false)]).2.1
      (Val.bool false) rfl⟩

/-- C9: rendering is a deterministic function of the widget state, the field
and the keyword overrides, and a call leaves the widget state untouched
(`HTML5Input.__call__` updates a copy of `self.options`; `SelectWidget`
writes no instance attribute), so two calls with identical field state and
identical keywords produce identical output. -/
theorem c9_render_deterministic {α : Type} (w : HTML5Input)
    (range_validators : Field α → List (String × Val)) (f : Field α) (kwargs : AttrMap)
    (sw : SelectWidget) (sf : SelectField) (skwargs : AttrMap) :
    ((w.callS range_validators f kwargs).2 = w
      ∧ (w.callS range_validators f kwargs).1 =
          ((w.callS range_validators f kwargs).2.callS range_validators f kwargs).1)
    ∧ ((sw.callS sf skwargs).2 = sw
      ∧ (sw.callS sf skwargs).1 = ((sw.callS sf skwargs).2.callS sf skwargs).1) :=
  ⟨⟨rfl, rfl⟩, ⟨rfl, rfl⟩⟩

mutual

theorem renderChoice_hasOther (f : SelectField) :
    (e : ChoiceEntry) → hasOther e = true →
      render_choice f e = .ok none ∨ ∃ m, render_choice f e = .error m
  | .other, _ => Or.inl rfl
  | .choice c, h => by simp [hasOther] at h
  | .group lbl entries, h => by
    have h' : hasOtherList entries = true := h
    rcases renderChoiceList_hasOther f entries h' with ⟨m, hm⟩ | ⟨parts, hp, hall⟩
    · exact Or.inr ⟨m, by simp [render_choice, hm]⟩
    · refine Or.inr ⟨"TypeError: sequence item: expected str instance, NoneType found", ?_⟩
      simp [render_choice, hp, hall]

theorem renderChoiceList_hasOther (f : SelectField) :
    (l : ChoiceList) → hasOtherList l = true →
      (∃ m, renderChoiceList f l = .error m) ∨
      (∃ parts, renderChoiceList f l = .ok parts ∧ parts.all Option.isSome = false)
  | .nil, h => by simp [hasOtherList] at h
  | .cons e rest, h => by
    rw [hasOtherList, Bool.or_eq_true] at h
    rcases h with he | hr
    · rcases renderChoice_hasOther f e he with hnone | ⟨m, hm⟩
      · cases hrest : renderChoiceList f rest with
        | error m => exact Or.inl ⟨m, by simp [renderChoiceList, hnone, hrest]⟩
        | ok os =>
          exact Or.inr ⟨none :: os, by simp [renderChoiceList, hnone, hrest], by simp⟩
      · exact Or.inl ⟨m, by simp [renderChoiceList, hm]⟩
    · rcases renderChoiceList_hasOther f rest hr with ⟨m, hm⟩ | ⟨parts, hp, hall⟩
      · cases hce : render_choice f e with
        | error m2 => exact Or.inl ⟨m2, by simp [renderChoiceList, hce]⟩
        | ok o => exact Or.inl ⟨m, by simp [renderChoiceList, hce, hm]⟩
      · cases hce : render_choice f e with
        | error m2 => exact Or.inl ⟨m2, by simp [renderChoiceList, hce]⟩
        | ok o =>
          exact Or.inr ⟨o :: parts, by simp [renderChoiceList, hce, hp], by simp [hall]⟩

end

/-- C3 counterexample: a select field whose choice sequence contains an
entry that is neither a `Choice` nor a `Choices` group does NOT render: the
`None` returned by `render_choice` for that entry makes `''.join` in
`SelectWidget.__call__` raise `TypeError`, so the render fails instead of
silently skipping the entry. -/
theorem c3_unrecognized_counterexample :
    SelectWidget.call ⟨false⟩ exUnrecognizedField [] =
      .error "TypeError: sequence item: expected str instance, NoneType found" := rfl

/-- C3 as amended: `render_choice` itself produces no output and raises no
failure for an unrecognized entry (it returns `None`), but whenever the
field's choice sequence contains such an entry — at top level or inside a
group — the select render as a whole raises a `TypeError` (from the
`join` over the rendered fragments) rather than skipping the entry and
rendering the rest. -/
theorem c3_unrecognized_amended (w : SelectWidget) (f : SelectField) (kwargs : AttrMap) :
    render_choice f ChoiceEntry.other = .ok none
    ∧ (hasOtherList f.choices = true → ∃ m, w.call f kwargs = .error m) := by
  refine ⟨rfl, fun h => ?_⟩
  rcases renderChoiceList_hasOther f f.choices h with ⟨m, hm⟩ | ⟨parts, hp, hall⟩
  · exact ⟨m, by simp [SelectWidget.call, hm]⟩
  · exact ⟨"TypeError: sequence item: expected str instance, NoneType found",
      by simp [SelectWidget.call, hp, hall]⟩

/-- Witness for the amended C3 at the concrete field with an unrecognized
entry. -/
theorem c3_unrecognized_amended_witness :
    render_choice exUnrecognizedField ChoiceEntry.other = .ok none
    ∧ ∃ m, SelectWidget.call ⟨false⟩ exUnrecognizedField [] = .error m :=
  ⟨(c3_unrecognized_amended ⟨false⟩ exUnrecognizedField []).1,
    (c3_unrecognized_amended ⟨false⟩ exUnrecognizedField []).2 rfl⟩

/-- C4 counterexample: for a concrete choice whose `key` and `value` differ
(`key = "k"`, `value = "v"`), the rendered option's `value` attribute is
the choice's KEY `"k"`, not its value: rendering with the choice's value
would have produced a different option tag. -/
theorem c4_option_value_counterexample :
    render_choice exScalarField (.choice exKeyValueChoice) =
      .ok (some "<option value=\"k\">L</option>")
    ∧ exKeyValueChoice.value = Val.str "v"
    ∧ render_option exKeyValueChoice.value exKeyValueChoice.label
        (choiceSelected exScalarField.data exKeyValueChoice) [] =
        "<option value=\"v\">L</option>"
    ∧ ("<option value=\"k\">L</option>" : String) ≠ "<option value=\"v\">L</option>" :=
  ⟨rfl, rfl, rfl, by decide⟩

/-- C4 as amended: for every rendered single choice, the emitted option's
`value` attribute is the choice's KEY (`render_choice` passes `choice.key`,
not `choice.value`, to `render_option`), except that a literal boolean
`True` key is serialized to its textual form `"True"` instead of being
passed through as a native boolean; any other key value reaches the
attribute set unchanged. -/
theorem c4_option_value_is_key (f : SelectField) (c : Choice) :
    render_choice f (.choice c) =
      .ok (some (render_option c.key c.label (choiceSelected f.data c) []))
    ∧ (∀ (sel : Bool) (kwargs : AttrMap),
        lookupA (optionOptions (Val.bool true) sel kwargs) "value" = some (Val.str "True"))
    ∧ (∀ v : Val, v ≠ Val.bool true → ∀ (sel : Bool) (kwargs : AttrMap),
        lookupA (optionOptions v sel kwargs) "value" = some v) := by
  refine ⟨rfl, fun sel kwargs => ?_, fun v hv sel kwargs => ?_⟩
  · unfold optionOptions
    simp only [if_pos rfl]
    cases sel
    · simp [lookupA_setA_self, text_type]
    · simp [lookupA_setA_other _ "selected" "value" _ (by decide), lookupA_setA_self,
        text_type]
  · unfold optionOptions
    simp only [if_neg hv]
    cases sel
    · simp [lookupA_setA_self]
    · simp [lookupA_setA_other _ "selected" "value" _ (by decide), lookupA_setA_self]

/-- Witness for the amended C4: at the concrete choice with `key = "k"` and
`value = "v"` the pipeline equality holds, a boolean `True` key yields
`value="True"`, and a string key reaches the attribute set unchanged. -/
theorem c4_option_value_is_key_witness :
    render_choice exScalarField (.choice exKeyValueChoice) =
      .ok (some (render_option exKeyValueChoice.key exKeyValueChoice.label
        (choiceSelected exScalarField.data exKeyValueChoice) []))
    ∧ lookupA (optionOptions (Val.bool true) true []) "value" = some (Val.str "True")
    ∧ lookupA (optionOptions (Val.str "k") true []) "value" = some (Val.str "k") :=
  ⟨(c4_option_value_is_key exScalarField exKeyValueChoice).1,
    (c4_option_value_is_key exScalarField exKeyValueChoice).2.1 true [],
    (c4_option_value_is_key exScalarField exKeyValueChoice).2.2 (Val.str "k")
      (by decide) true []⟩

/-- C5: a rendered option carries the `selected` attribute exactly when the
field's data equals the choice's value (Python `==`), or — when the field's
data is a multi-valued `list` — exactly when the choice's value is a member
of that list; no other option is marked selected. -/
theorem c5_option_selected_iff (f : SelectField) (c : Choice) :
    render_choice f (.choice c) =
      .ok (some (render_option c.key c.label (choiceSelected f.data c) []))
    ∧ (lookupA (optionOptions c.key (choiceSelected f.data c) []) "selected" =
        some (Val.bool true) ↔
      (match f.data with
        | .scalar v => pyEq v c.value = true
        | .list l => ∃ x ∈ l, pyEq x c.value = true)) := by
  refine ⟨rfl, ?_⟩
  have hsel : ∀ (v : Val) (sel : Bool), lookupA (optionOptions v sel []) "selected" =
      if sel then some (Val.bool true) else none := by
    intro v sel
    cases sel <;> rfl
  rw [hsel]
  rcases hfd : f.data with v | l
  · cases hpe : pyEq v c.value <;> simp [choiceSelected, hfd, hpe]
  · cases hany : l.any (fun x => pyEq x c.value) <;>
      simp [choiceSelected, hfd, hany, ← List.any_eq_true]

theorem escChar_no_angle (q : Bool) (c : Char) :
    '<' ∉ escChar q c ∧ '>' ∉ escChar q c := by
  unfold escChar
  by_cases h1 : c = '&'
  · rw [if_pos h1]; decide
  · rw [if_neg h1]
    by_cases h2 : c = '<'
    · rw [if_pos h2]; decide
    · rw [if_neg h2]
      by_cases h3 : c = '>'
      · rw [if_pos h3]; decide
      · rw [if_neg h3]
        by_cases h4 : q = true ∧ c = '"'
        · rw [if_pos h4]; decide
        · rw [if_neg h4]
          refine ⟨?_, ?_⟩
          · simp only [List.mem_singleton]
            exact fun e => h2 e.symm
          · simp only [List.mem_singleton]
            exact fun e => h3 e.symm

theorem foldr_esc_no_angle (q : Bool) (l : List Char) :
    ∀ x ∈ l.foldr (fun c r => escChar q c ++ r) [], x ≠ '<' ∧ x ≠ '>' := by
  induction l with
  | nil => simp
  | cons c cs ih =>
    intro x hx
    rw [List.foldr_cons, List.mem_append] at hx
    rcases hx with hx | hx
    · have h := escChar_no_angle q c
      exact ⟨fun e => h.1 (e ▸ hx), fun e => h.2 (e ▸ hx)⟩
    · exact ih x hx

/-- C7: every choice label and group label is HTML-escaped through
`cgi.escape` before insertion: `render_option` inserts the escaped label as
the option body, `render_choice` on a group inserts the escaped group label
into the `label="..."` attribute, and escaped text never contains a raw
angle bracket — in particular a label `<script>` renders as
`&lt;script&gt;` rather than as markup. -/
theorem c7_labels_escaped :
    (∀ (s : String) (x : Char), x ∈ (escape s false).data → x ≠ '<' ∧ x ≠ '>')
    ∧ (∀ (value label : Val) (sel : Bool) (kwargs : AttrMap),
        render_option value label sel kwargs =
          "<option " ++ html_params (optionOptions value sel kwargs) ++ ">" ++
            escape (text_type label) false ++ "</option>")
    ∧ (∀ (f : SelectField) (glbl : Val) (entries : ChoiceList)
        (parts : List (Option String)),
        renderChoiceList f entries = .ok parts → parts.all Option.isSome = true →
        render_choice f (.group glbl entries) = .ok (some
          ("<optgroup label=\"" ++ escape (text_type glbl) false ++ "\">" ++
            String.intercalate "\n" (parts.filterMap id) ++ "</optgroup>")))
    ∧ escape "<script>" false = "&lt;script&gt;" := by
  refine ⟨?_, fun v lbl sel kw => rfl, fun f glbl entries parts hp hall => ?_, rfl⟩
  · intro s x hx
    exact foldr_esc_no_angle false s.data x hx
  · simp [render_choice, hp, hall]

/-- Witness for C7 at concrete labels: the character `'&'` of the escaped
`<script>` label is not an angle bracket, the option body and optgroup
label equalities hold at concrete inputs, and `<script>` escapes to
`&lt;script&gt;`. -/
theorem c7_labels_escaped_witness :
    (('&' : Char) ≠ '<' ∧ ('&' : Char) ≠ '>')
    ∧ render_option (Val.str "x") (Val.str "<script>") false [] =
        "<option " ++ html_params (optionOptions (Val.str "x") false []) ++ ">" ++
          escape (text_type (Val.str "<script>")) false ++ "</option>"
    ∧ render_choice exScalarField (.group (Val.str "<script>") .nil) = .ok (some
        ("<optgroup label=\"" ++ escape (text_type (Val.str "<script>")) false ++ "\">" ++
          String.intercalate "\n" (([] : List (Option String)).filterMap id) ++
          "</optgroup>"))
    ∧ escape "<script>" false = "&lt;script&gt;" :=
  ⟨c7_labels_escaped.1 "<script>" '&' (by decide),
    c7_labels_escaped.2.1 (Val.str "x") (Val.str "<script>") false [],
    c7_labels_escaped.2.2.1 exScalarField (Val.str "<script>") .nil [] rfl rfl,
    c7_labels_escaped.2.2.2⟩
